import Mathlib

/-!
Shallow embedding of the wayland-scribe code generator
(src/scribe/wayland-scribe.cpp) in Lean 4.

Strings are modelled by Lean `String` (a list of characters); Qt byte
arrays holding UTF-8 text are modelled the same way.  The one place the
code distinguishes a null `QByteArray` from an empty one
(`entry.summary.isNull()` in `printEnums`) is modelled with
`Option String` (`none` = attribute absent).  `FILE *` output is
modelled by returning the written text as a `String`; the sequence of
`fprintf` calls of the source becomes string concatenation in the same
order.
-/

/-- `String.join (l.map f)` written as a first-order recursion: the
in-order concatenation of the rendering of every list element. -/
def concatMapStr (f : α → String) : List α → String
  | [] => ""
  | x :: xs => f x ++ concatMapStr f xs

/-- Declarative separator join: the renderings of the elements in list
order with `sep` between consecutive ones. -/
def sepJoin (sep : String) : List String → String
  | [] => ""
  | [x] => x
  | x :: y :: xs => x ++ sep ++ sepJoin sep (y :: xs)

/-- Operational separator loop, mirroring the C++ `needsComma` /
`needsNewLine` idiom: a boolean accumulator tells whether a separator is
due before the next element. -/
def sepLoop (sep : String) (f : α → String) : List α → Bool → String
  | [], _ => ""
  | x :: xs, needsSep => (if needsSep then sep else "") ++ f x ++ sepLoop sep f xs true

/-- The per-interface emission loop shared by all four generators:
`continue` on `keep i = false`, a separating newline before every block
except the first (the `needsNewLine` flag of the source). -/
def emitLoop (keep : α → Bool) (block : α → String) : List α → Bool → String
  | [], _ => ""
  | i :: is, needsNewLine =>
    if keep i then
      (if needsNewLine then "\n" else "") ++ block i ++ emitLoop keep block is true
    else
      emitLoop keep block is needsNewLine

/-! ## Qt string primitives, modelled on the character list

`QByteArray`/`QString` text is ASCII here, so the byte-based Qt
operations coincide with these character-based ones. -/

/-- Fuel-driven scan for `replaceList`; each step consumes at least one
character of the scanned list, so `l.length` fuel always suffices. -/
def replaceListGo (pat repl : List Char) : Nat → List Char → List Char
  | 0, l => l
  | _ + 1, [] => []
  | fuel + 1, c :: cs =>
    if !pat.isEmpty && pat.isPrefixOf (c :: cs) then
      repl ++ replaceListGo pat repl fuel ((c :: cs).drop pat.length)
    else
      c :: replaceListGo pat repl fuel cs

/-- `QString::replace(before, after)` on character lists: scan left to
right, replace every non-overlapping occurrence of the (non-empty)
pattern, never rescanning the replacement text. -/
def replaceList (pat repl l : List Char) : List Char :=
  replaceListGo pat repl l.length l

/-- `QString::replace(before, after)` (replace-all). -/
def qReplace (s pat repl : String) : String :=
  ⟨replaceList pat.data repl.data s.data⟩

/-- `QByteArray::startsWith` / `QString::startsWith`. -/
def qStartsWith (s pre : String) : Bool :=
  pre.data.isPrefixOf s.data

/-- `QByteArray::endsWith` / `QString::endsWith`. -/
def qEndsWith (s suf : String) : Bool :=
  suf.data.isSuffixOf s.data

/-- `QByteArray::mid(pos)`: drop the first `pos` units. -/
def qDrop (s : String) (n : Nat) : String :=
  ⟨s.data.drop n⟩

/-! ## The IR (struct WaylandEnumEntry / WaylandEnum / WaylandArgument /
WaylandEvent / WaylandInterface of wayland-scribe.hpp) -/

structure WaylandEnumEntry where
  name : String
  value : String
  /-- `none` models a null `QByteArray` (attribute absent);
  `some s` a present attribute, possibly empty. -/
  summary : Option String
deriving Repr, DecidableEq

structure WaylandEnum where
  name : String
  entries : List WaylandEnumEntry
deriving Repr, DecidableEq

structure WaylandArgument where
  name : String
  type : String
  interface : String
  summary : String
  allowNull : Bool
deriving Repr, DecidableEq

structure WaylandEvent where
  request : Bool
  name : String
  type : String
  arguments : List WaylandArgument
deriving Repr, DecidableEq

structure WaylandInterface where
  name : String
  version : Int
  enums : List WaylandEnum
  events : List WaylandEvent
  requests : List WaylandEvent
deriving Repr, DecidableEq

/-! ## XML document model

`QXmlStreamReader` usage in the source is plain recursive descent over
elements and their attributes; we model an element tree directly. -/

structure XmlAttr where
  name : String
  value : String
deriving Repr, DecidableEq

inductive XmlElem where
  | mk (tag : String) (attrs : List XmlAttr) (children : List XmlElem)

def XmlElem.tag : XmlElem → String
  | .mk t _ _ => t

def XmlElem.attrs : XmlElem → List XmlAttr
  | .mk _ a _ => a

def XmlElem.children : XmlElem → List XmlElem
  | .mk _ _ c => c

/-- `xml.attributes().value(name)` when present (`hasAttribute`). -/
def attrValue? (el : XmlElem) (n : String) : Option String :=
  (el.attrs.find? (fun a => a.name == n)).map (fun a => a.value)

/-- `Scribe::byteArrayValue`: the attribute's text, or a null (here:
empty) byte array when the attribute is absent. -/
def byteArrayValue (el : XmlElem) (n : String) : String :=
  (attrValue? el n).getD ""

/-- `Scribe::intValue`: `toInt` with an `ok` flag, falling back to
`defaultValue` when absent or non-numeric. -/
def intValue (el : XmlElem) (n : String) (defaultValue : Int) : Int :=
  match (byteArrayValue el n).toInt? with
  | some v => v
  | none => defaultValue

/-- `Scribe::boolValue`: true iff the attribute text is exactly "true". -/
def boolValue (el : XmlElem) (n : String) : Bool :=
  byteArrayValue el n == "true"

/-- `Scribe::readEvent`: name/type from attributes, one argument per
`arg` child in document order; other children are skipped. -/
def readEvent (el : XmlElem) (request : Bool) : WaylandEvent :=
  { request := request
    name := byteArrayValue el "name"
    type := byteArrayValue el "type"
    arguments := (el.children.filter (fun c => c.tag == "arg")).map (fun c =>
      { name := byteArrayValue c "name"
        type := byteArrayValue c "type"
        interface := byteArrayValue c "interface"
        summary := byteArrayValue c "summary"
        allowNull := boolValue c "allowNull" }) }

/-- `Scribe::readEnum`: one entry per `entry` child in document order;
the `value` attribute text is stored as-is, never parsed. -/
def readEnum (el : XmlElem) : WaylandEnum :=
  { name := byteArrayValue el "name"
    entries := (el.children.filter (fun c => c.tag == "entry")).map (fun c =>
      { name := byteArrayValue c "name"
        value := byteArrayValue c "value"
        summary := attrValue? c "summary" }) }

/-- `Scribe::readInterface`: `event`/`request`/`enum` children are
dispatched to the three sequences, each kept in document order; other
children are skipped. -/
def readInterface (el : XmlElem) : WaylandInterface :=
  { name := byteArrayValue el "name"
    version := intValue el "version" 1
    enums := (el.children.filter (fun c => c.tag == "enum")).map readEnum
    events := (el.children.filter (fun c => c.tag == "event")).map (fun c => readEvent c false)
    requests := (el.children.filter (fun c => c.tag == "request")).map (fun c => readEvent c true) }

/-! ## The Scribe configuration state (the data members of class
Wayland::Scribe) -/

structure Scribe where
  mServer : Bool := false
  /-- 0: both source and header; 1: source; 2: header. -/
  mFile : Nat := 0
  mProtocolName : String := ""
  mProtocolFilePath : String := ""
  mScannerName : String := "wayland-scribe"
  mHeaderPath : String := ""
  mPrefix : String := ""
  mOutputSrcPath : String := ""
  mOutputHdrPath : String := ""
  mIncludes : List String := []
  /-- The compile-time PROJECT_VERSION macro baked into the binary. -/
  projectVersion : String := "v1.2.1"
deriving Repr, DecidableEq

/-- `hasSuffix` (file-local helper in wayland-scribe.cpp). -/
def hasSuffix (fName : String) (type : Char) : Bool :=
  if type == 'h' then
    qEndsWith fName ".h" || qEndsWith fName ".hh" || qEndsWith fName ".hpp"
  else if type == 'c' then
    qEndsWith fName ".cc" || qEndsWith fName ".cpp"
  else
    false

/-- The character loop of `snakeCaseToCamelCase`, threading the
`nextToUpper` flag. -/
def snakeToCamelGo : Bool → List Char → List Char
  | _, [] => []
  | nextToUpper, c :: cs =>
    if c == '_' then
      snakeToCamelGo true cs
    else
      (if nextToUpper then c.toUpper else c) :: snakeToCamelGo false cs

/-- `snakeCaseToCamelCase` (file-scope function in wayland-scribe.cpp):
drops underscores and upper-cases the character after each one;
`capitalize` upper-cases the very first character. -/
def snakeCaseToCamelCase (s : String) (capitalize : Bool) : String :=
  ⟨snakeToCamelGo capitalize s.data⟩

/-- `Scribe::stripInterfaceName`. -/
def stripInterfaceName (sc : Scribe) (name : String) (capitalize : Bool) : String :=
  if !sc.mPrefix.isEmpty && qStartsWith name sc.mPrefix then
    snakeCaseToCamelCase (qDrop name sc.mPrefix.length) capitalize
  else if qStartsWith name "qt_" || qStartsWith name "wl_" then
    snakeCaseToCamelCase (qDrop name 3) capitalize
  else
    snakeCaseToCamelCase name capitalize

/-- `Scribe::ignoreInterface`. -/
def ignoreInterface (sc : Scribe) (name : String) : Bool :=
  name == "wl_display" || (sc.mServer && name == "wl_registry")

/-- `Scribe::waylandToCType`. -/
def waylandToCType (sc : Scribe) (waylandType : String) (interface : String) : String :=
  if waylandType == "string" then "const char *"
  else if waylandType == "int" then "int32_t"
  else if waylandType == "uint" then "uint32_t"
  else if waylandType == "fixed" then "wl_fixed_t"
  else if waylandType == "fd" then "int32_t"
  else if waylandType == "array" then "wl_array *"
  else if waylandType == "object" || waylandType == "new_id" then
    if sc.mServer then "struct ::wl_resource *"
    else if interface.isEmpty then "struct ::wl_object *"
    else "struct ::" ++ interface ++ " *"
  else waylandType

/-- `Scribe::waylandToQtType` (third argument is ignored by the source). -/
def waylandToQtType (sc : Scribe) (waylandType : String) (interface : String) (_ : Bool) : String :=
  if waylandType == "string" then "const std::string &"
  else waylandToCType sc waylandType interface

/-- `Scribe::newIdArgument`: first argument whose type is `new_id`,
null pointer (here `none`) when there is none. -/
def newIdArgument : List WaylandArgument → Option WaylandArgument
  | [] => none
  | a :: as => if a.type == "new_id" then some a else newIdArgument as

/-! ## Signature printers (`printEvent`, `printEventHandlerSignature`,
`printEnums`) -/

/-- The per-argument loop of `Scribe::printEvent`, threading the
`needsComma` flag.  `req` is `e.request` of the enclosing event. -/
def printEventArgsLoop (sc : Scribe) (req : Bool) (omitNames : Bool) :
    List WaylandArgument → Bool → String
  | [], _ => ""
  | a :: as, needsComma =>
    let isNewId := a.type == "new_id"
    if isNewId && !sc.mServer && (a.interface.isEmpty != req) then
      printEventArgsLoop sc req omitNames as needsComma
    else
      (if needsComma then ", " else "") ++
      (if isNewId && sc.mServer && req then
        "uint32_t" ++ (if omitNames then "" else " " ++ a.name)
      else if isNewId && !sc.mServer && req then
        "const struct ::wl_interface *" ++ (if omitNames then "" else "interface") ++
          ", uint32_t" ++ (if omitNames then "" else " version")
      else
        let qtType := waylandToQtType sc a.type a.interface (req == sc.mServer)
        qtType ++ (if qEndsWith qtType "&" || qEndsWith qtType "*" then "" else " ") ++
          (if omitNames then "" else a.name)) ++
      printEventArgsLoop sc req omitNames as true

/-- `Scribe::printEvent` (the text written to `f`). -/
def printEvent (sc : Scribe) (e : WaylandEvent)
    (omitNames : Bool := false) (withResource : Bool := false) (capitalize : Bool := false) :
    String :=
  snakeCaseToCamelCase e.name capitalize ++ "( " ++
  (if sc.mServer && e.request then
    "Resource *" ++ (if omitNames then "" else "resource") ++
      printEventArgsLoop sc e.request omitNames e.arguments true
  else if sc.mServer && withResource then
    "struct ::wl_resource *" ++ (if omitNames then "" else "resource") ++
      printEventArgsLoop sc e.request omitNames e.arguments true
  else
    printEventArgsLoop sc e.request omitNames e.arguments false) ++
  " )"

/-- `Scribe::printEventHandlerSignature` (the text written to `f`). -/
def printEventHandlerSignature (sc : Scribe) (e : WaylandEvent) (interfaceName : String) :
    String :=
  "handle" ++ snakeCaseToCamelCase e.name true ++ "( " ++
  (if sc.mServer then "::wl_client *, " ++ "struct wl_resource *resource"
   else "void *data, " ++ "struct ::" ++ interfaceName ++ " *") ++
  concatMapStr (fun a =>
    ", " ++
    (if sc.mServer && (a.type == "new_id") then
      "uint32_t " ++ snakeCaseToCamelCase a.name false
    else
      let cType := waylandToCType sc a.type a.interface
      cType ++ (if qEndsWith cType "*" then "" else " ") ++ snakeCaseToCamelCase a.name false))
    e.arguments ++
  " )"

/-- One `entry` line of `Scribe::printEnums`. -/
def printEnumEntry (enumName : String) (entry : WaylandEnumEntry) : String :=
  "            " ++ enumName ++ "_" ++ entry.name ++ " = " ++ entry.value ++ "," ++
  (match entry.summary with
   | some su => " // " ++ su
   | none => "") ++
  "\n"

/-- `Scribe::printEnums` (the text written to `f`). -/
def printEnums (enums : List WaylandEnum) : String :=
  concatMapStr (fun e =>
    "\n" ++
    "        enum class " ++ e.name ++ " \x7b\n" ++
    concatMapStr (printEnumEntry e.name) e.entries ++
    "        \x7d;\n") enums

/-- The `new_id_str` computation shared by `generateClientHeader` and
`generateClientCode`: the wrapper's return type, derived from the first
`new_id` argument when there is one. -/
def clientNewIdReturn (arguments : List WaylandArgument) : String :=
  match newIdArgument arguments with
  | none => "void "
  | some a =>
    if a.interface.isEmpty then "void *"
    else "struct ::" ++ a.interface ++ " *"

/-! ## Server header generation (`Scribe::generateServerHeader`) -/

/-- `QByteArray( mProtocolName ).replace( '_', '-' )`. -/
def protocolHyphen (sc : Scribe) : String :=
  qReplace sc.mProtocolName "_" "-"

/-- The text `generateServerHeader` writes before the interface loop. -/
def serverHeaderPre (sc : Scribe) : String :=
  "#include \"wayland-server-core.h\"\n" ++
  (if sc.mHeaderPath.isEmpty then
    "#include \"" ++ protocolHyphen sc ++ "-server.h\"\n\n"
  else
    "#include <" ++ sc.mHeaderPath ++ "/" ++ protocolHyphen sc ++ "-server.h>\n\n") ++
  "#include <iostream>\n" ++
  "#include <map>\n" ++
  "#include <string>\n" ++
  "#include <utility>\n" ++
  "\n" ++
  "\n" ++
  "namespace Wayland \x7b\n" ++
  "namespace Server \x7b\n"

/-- The per-interface class declaration emitted by
`generateServerHeader` (the body of its interface loop). -/
def serverHeaderBlock (sc : Scribe) (i : WaylandInterface) : String :=
  let interfaceName := snakeCaseToCamelCase i.name true
  let interfaceNameStripped := stripInterfaceName sc i.name false
  "    class " ++ interfaceName ++ " \x7b\n" ++
  "    public:\n" ++
  "        " ++ interfaceName ++ "(struct ::wl_client *client, uint32_t id, int version);\n" ++
  "        " ++ interfaceName ++ "(struct ::wl_display *display, int version);\n" ++
  "        " ++ interfaceName ++ "(struct ::wl_resource *resource);\n" ++
  "        " ++ interfaceName ++ "();\n" ++
  "\n" ++
  "        virtual ~" ++ interfaceName ++ "();\n" ++
  "\n" ++
  "        class Resource \x7b\n" ++
  "        public:\n" ++
  "            Resource() : " ++ interfaceNameStripped ++ "Object(nullptr), handle(nullptr) \x7b\x7d\n" ++
  "            virtual ~Resource() \x7b\x7d\n" ++
  "\n" ++
  "            " ++ interfaceName ++ " *" ++ interfaceNameStripped ++ "Object;\n" ++
  "            " ++ interfaceName ++ " *object() \x7b return " ++ interfaceNameStripped ++ "Object; \x7d \n" ++
  "            struct ::wl_resource *handle;\n" ++
  "\n" ++
  "            struct ::wl_client *client() const \x7b return wl_resource_get_client(handle); \x7d\n" ++
  "            int version() const \x7b return wl_resource_get_version(handle); \x7d\n" ++
  "\n" ++
  "            static Resource *fromResource(struct ::wl_resource *resource);\n" ++
  "        \x7d;\n" ++
  "\n" ++
  "        void init(struct ::wl_client *client, uint32_t id, int version);\n" ++
  "        void init(struct ::wl_display *display, int version);\n" ++
  "        void init(struct ::wl_resource *resource);\n" ++
  "\n" ++
  "        Resource *add(struct ::wl_client *client, int version);\n" ++
  "        Resource *add(struct ::wl_client *client, uint32_t id, int version);\n" ++
  "        Resource *add(struct wl_list *resource_list, struct ::wl_client *client, uint32_t id, int version);\n" ++
  "\n" ++
  "        Resource *resource() \x7b return m_resource; \x7d\n" ++
  "        const Resource *resource() const \x7b return m_resource; \x7d\n" ++
  "\n" ++
  "        std::multimap<struct ::wl_client*, Resource*> resourceMap() \x7b return m_resource_map; \x7d\n" ++
  "        const std::multimap<struct ::wl_client*, Resource*> resourceMap() const \x7b return m_resource_map; \x7d\n" ++
  "\n" ++
  "        bool isGlobal() const \x7b return m_global != nullptr; \x7d\n" ++
  "        bool isResource() const \x7b return m_resource != nullptr; \x7d\n" ++
  "\n" ++
  "        static const struct ::wl_interface *interface();\n" ++
  "        static std::string interfaceName() \x7b return interface()->name; \x7d\n" ++
  "        static int interfaceVersion() \x7b return interface()->version; \x7d\n" ++
  "\n" ++
  printEnums i.enums ++
  (if !i.events.isEmpty then
    "\n" ++
    concatMapStr (fun e =>
      "        void send" ++ printEvent sc e false false true ++ ";\n" ++
      "        void send" ++ printEvent sc e false true true ++ ";\n") i.events
  else "") ++
  "\n" ++
  "    protected:\n" ++
  "        virtual Resource *allocate();\n" ++
  "\n" ++
  "        virtual void bindResource(Resource *resource);\n" ++
  "        virtual void destroyResource(Resource *resource);\n" ++
  (if !i.requests.isEmpty then
    "\n" ++
    concatMapStr (fun e =>
      "        virtual void " ++ printEvent sc e ++ ";\n") i.requests
  else "") ++
  "\n" ++
  "    private:\n" ++
  "        static void bind_func(struct ::wl_client *client, void *data, uint32_t version, uint32_t id);\n" ++
  "        static void destroy_func(struct ::wl_resource *client_resource);\n" ++
  "        static void display_destroy_func(struct ::wl_listener *listener, void *data);\n" ++
  "\n" ++
  "        Resource *bind(struct ::wl_client *client, uint32_t id, int version);\n" ++
  "        Resource *bind(struct ::wl_resource *handle);\n" ++
  (if !i.requests.isEmpty then
    "\n" ++
    "        static const struct ::" ++ i.name ++ "_interface m_" ++ i.name ++ "_interface;\n" ++
    "\n" ++
    concatMapStr (fun e =>
      "        static void " ++ printEventHandlerSignature sc e interfaceName ++ ";\n") i.requests
  else "") ++
  "\n" ++
  "        std::multimap<struct ::wl_client*, Resource*> m_resource_map;\n" ++
  "        Resource *m_resource = nullptr;\n" ++
  "        struct ::wl_global *m_global = nullptr;\n" ++
  "        struct DisplayDestroyedListener : ::wl_listener \x7b\n" ++
  "            " ++ interfaceName ++ " *parent;\n" ++
  "        \x7d;\n" ++
  "        DisplayDestroyedListener m_displayDestroyedListener;\n" ++
  "    \x7d;\n"

/-- `Scribe::generateServerHeader`: preamble, then one class block per
non-ignored interface in document order (blank-line separated), then
the closing namespace braces. -/
def generateServerHeader (sc : Scribe) (interfaces : List WaylandInterface) : String :=
  serverHeaderPre sc ++
  emitLoop (fun i => !ignoreInterface sc i.name) (serverHeaderBlock sc) interfaces false ++
  "\x7d\n" ++ "\x7d\n" ++ "\n"

/-! ## Server implementation generation (`Scribe::generateServerCode`) -/

/-- The text `generateServerCode` writes before the interface loop. -/
def serverCodePre (sc : Scribe) : String :=
  (if sc.mHeaderPath.isEmpty then
    "#include \"" ++ protocolHyphen sc ++ "-server.h\"\n" ++
    "#include \"" ++ protocolHyphen sc ++ "-server.hpp\"\n"
  else
    "#include <" ++ sc.mHeaderPath ++ "/" ++ protocolHyphen sc ++ "-server.h>\n" ++
    "#include <" ++ sc.mHeaderPath ++ "/" ++ protocolHyphen sc ++ "-server.hpp>\n") ++
  "\n"

/-- The `needsComma` loop filling the per-interface dispatch table
`m_<iface>_interface` with one handler pointer per request. -/
def serverDispatchEntriesLoop (interfaceName : String) (requests : List WaylandEvent) : String :=
  sepLoop ","
    (fun e => "\n" ++ "    Wayland::Server::" ++ interfaceName ++ "::handle" ++
      snakeCaseToCamelCase e.name true)
    requests false

/-- The per-interface definitions emitted by `generateServerCode`
(the body of its interface loop). -/
def serverCodeBlock (sc : Scribe) (i : WaylandInterface) : String :=
  let interfaceName := snakeCaseToCamelCase i.name true
  let interfaceNameStripped := stripInterfaceName sc i.name false
  let hasRequests := !i.requests.isEmpty
  let interfaceMember := if hasRequests then "&m_" ++ i.name ++ "_interface" else "nullptr"
  "Wayland::Server::" ++ interfaceName ++ "::" ++ interfaceName ++ "(struct ::wl_client *client, uint32_t id, int version) \x7b\n" ++
  "    m_resource_map.clear();\n" ++
  "    init(client, id, version);\n" ++
  "\x7d\n" ++
  "\n" ++
  "Wayland::Server::" ++ interfaceName ++ "::" ++ interfaceName ++ "(struct ::wl_display *display, int version) \x7b\n" ++
  "    m_resource_map.clear();\n" ++
  "    init(display, version);\n" ++
  "\x7d\n" ++
  "\n" ++
  "Wayland::Server::" ++ interfaceName ++ "::" ++ interfaceName ++ "(struct ::wl_resource *resource) \x7b\n" ++
  "    m_resource_map.clear();\n" ++
  "    init(resource);\n" ++
  "\x7d\n" ++
  "\n" ++
  "Wayland::Server::" ++ interfaceName ++ "::" ++ interfaceName ++ "() \x7b\n" ++
  "    m_resource_map.clear();\n" ++
  "\x7d\n" ++
  "\n" ++
  "Wayland::Server::" ++ interfaceName ++ "::~" ++ interfaceName ++ "() \x7b\n" ++
  "    for (auto it = m_resource_map.begin(); it != m_resource_map.end(); ) \x7b\n" ++
  "        Resource *resourcePtr = it->second;\n" ++
  "\n" ++
  "        // Delete the Resource object pointed to by resourcePtr\n" ++
  "        resourcePtr->" ++ interfaceNameStripped ++ "Object = nullptr;\n" ++
  "    \x7d\n" ++
  "\n" ++
  "    if (m_resource)\n" ++
  "        m_resource->" ++ interfaceNameStripped ++ "Object = nullptr;\n" ++
  "\n" ++
  "    if (m_global) \x7b\n" ++
  "        wl_global_destroy(m_global);\n" ++
  "        wl_list_remove(&m_displayDestroyedListener.link);\n" ++
  "    \x7d\n" ++
  "\x7d\n" ++
  "\n" ++
  "void Wayland::Server::" ++ interfaceName ++ "::init(struct ::wl_client *client, uint32_t id, int version) \x7b\n" ++
  "    m_resource = bind(client, id, version);\n" ++
  "\x7d\n" ++
  "\n" ++
  "void Wayland::Server::" ++ interfaceName ++ "::init(struct ::wl_resource *resource) \x7b\n" ++
  "    m_resource = bind(resource);\n" ++
  "\x7d\n" ++
  "\n" ++
  "Wayland::Server::" ++ interfaceName ++ "::Resource *Wayland::Server::" ++ interfaceName ++ "::add(struct ::wl_client *client, int version) \x7b\n" ++
  "    Resource *resource = bind(client, 0, version);\n" ++
  "    m_resource_map.insert(std::pair\x7bclient, resource\x7d);\n" ++
  "    return resource;\n" ++
  "\x7d\n" ++
  "\n" ++
  "Wayland::Server::" ++ interfaceName ++ "::Resource *Wayland::Server::" ++ interfaceName ++ "::add(struct ::wl_client *client, uint32_t id, int version) \x7b\n" ++
  "    Resource *resource = bind(client, id, version);\n" ++
  "    m_resource_map.insert(std::pair\x7bclient, resource\x7d);\n" ++
  "    return resource;\n" ++
  "\x7d\n" ++
  "\n" ++
  "void Wayland::Server::" ++ interfaceName ++ "::init(struct ::wl_display *display, int version) \x7b\n" ++
  "    m_global = wl_global_create(display, &::" ++ i.name ++ "_interface, version, this, bind_func);\n" ++
  "    m_displayDestroyedListener.notify = " ++ interfaceName ++ "::display_destroy_func;\n" ++
  "    m_displayDestroyedListener.parent = this;\n" ++
  "    wl_display_add_destroy_listener(display, &m_displayDestroyedListener);\n" ++
  "\x7d\n" ++
  "\n" ++
  "const struct wl_interface *Wayland::Server::" ++ interfaceName ++ "::interface() \x7b\n" ++
  "    return &::" ++ i.name ++ "_interface;\n" ++
  "\x7d\n" ++
  "\n" ++
  "Wayland::Server::" ++ interfaceName ++ "::Resource *Wayland::Server::" ++ interfaceName ++ "::allocate() \x7b\n" ++
  "    return new Resource;\n" ++
  "\x7d\n" ++
  "\n" ++
  "void Wayland::Server::" ++ interfaceName ++ "::bindResource(Resource *) \x7b\n" ++
  "\x7d\n" ++
  "\n" ++
  "void Wayland::Server::" ++ interfaceName ++ "::destroyResource(Resource *) \x7b\n" ++
  "\x7d\n" ++
  "\n" ++
  "void Wayland::Server::" ++ interfaceName ++ "::bind_func(struct ::wl_client *client, void *data, uint32_t version, uint32_t id) \x7b\n" ++
  "    " ++ interfaceName ++ " *that = static_cast<" ++ interfaceName ++ " *>(data);\n" ++
  "    that->add(client, id, version);\n" ++
  "\x7d\n" ++
  "\n" ++
  "void Wayland::Server::" ++ interfaceName ++ "::display_destroy_func(struct ::wl_listener *listener, void *) \x7b\n" ++
  "    " ++ interfaceName ++ " *that = static_cast<" ++ interfaceName ++ "::DisplayDestroyedListener *>(listener)->parent;\n" ++
  "    that->m_global = nullptr;\n" ++
  "\x7d\n" ++
  "\n" ++
  "void Wayland::Server::" ++ interfaceName ++ "::destroy_func(struct ::wl_resource *client_resource) \x7b\n" ++
  "    Resource *resource = Resource::fromResource(client_resource);\n" ++
  "    " ++ interfaceName ++ " *that = resource->" ++ interfaceNameStripped ++ "Object;\n" ++
  "    if (that) \x7b\n" ++
  "        auto it = that->m_resource_map.begin();\n" ++
  "        while ( it != that->m_resource_map.end() ) \x7b\n" ++
  "            if ( it->first == resource->client() ) \x7b\n" ++
  "                it = that->m_resource_map.erase( it );\n" ++
  "            \x7d\n" ++
  "\n" ++
  "            else \x7b\n" ++
  "                ++it;\n" ++
  "            \x7d\n" ++
  "        \x7d\n" ++
  "        that->destroyResource(resource);\n" ++
  "\n" ++
  "        that = resource->" ++ interfaceNameStripped ++ "Object;\n" ++
  "        if (that && that->m_resource == resource)\n" ++
  "            that->m_resource = nullptr;\n" ++
  "    \x7d\n" ++
  "    delete resource;\n" ++
  "\x7d\n" ++
  "\n" ++
  "Wayland::Server::" ++ interfaceName ++ "::Resource *Wayland::Server::" ++ interfaceName ++ "::bind(struct ::wl_client *client, uint32_t id, int version) \x7b\n" ++
  "    struct ::wl_resource *handle = wl_resource_create(client, &::" ++ i.name ++ "_interface, version, id);\n" ++
  "    return bind(handle);\n" ++
  "\x7d\n" ++
  "\n" ++
  "Wayland::Server::" ++ interfaceName ++ "::Resource *Wayland::Server::" ++ interfaceName ++ "::bind(struct ::wl_resource *handle) \x7b\n" ++
  "    Resource *resource = allocate();\n" ++
  "    resource->" ++ interfaceNameStripped ++ "Object = this;\n" ++
  "\n" ++
  "    wl_resource_set_implementation(handle, " ++ interfaceMember ++ ", resource, destroy_func);" ++
  "\n" ++
  "    resource->handle = handle;\n" ++
  "    bindResource(resource);\n" ++
  "    return resource;\n" ++
  "\x7d\n" ++
  "\n" ++
  "Wayland::Server::" ++ interfaceName ++ "::Resource *Wayland::Server::" ++ interfaceName ++ "::Resource::fromResource(struct ::wl_resource *resource) \x7b\n" ++
  "    if (!resource)\n" ++
  "        return nullptr;\n" ++
  "    if (wl_resource_instance_of(resource, &::" ++ i.name ++ "_interface, " ++ interfaceMember ++ "))\n" ++
  "        return static_cast<Resource *>(wl_resource_get_user_data(resource));\n" ++
  "    return nullptr;\n" ++
  "\x7d\n" ++
  (if hasRequests then
    "\n" ++
    "const struct ::" ++ i.name ++ "_interface Wayland::Server::" ++ interfaceName ++ "::m_" ++ i.name ++ "_interface = \x7b" ++
    serverDispatchEntriesLoop interfaceName i.requests ++
    "\n" ++
    "\x7d;\n" ++
    concatMapStr (fun e =>
      "\n" ++
      "void Wayland::Server::" ++ interfaceName ++ "::" ++ printEvent sc e true ++ " \x7b\n" ++
      "\x7d\n") i.requests ++
    "\n" ++
    concatMapStr (fun e =>
      "\n" ++
      "void Wayland::Server::" ++ interfaceName ++ "::" ++
      printEventHandlerSignature sc e interfaceName ++ " \x7b\n" ++
      "    Resource *r = Resource::fromResource(resource);\n" ++
      "    if (!r->" ++ interfaceNameStripped ++ "Object) \x7b\n" ++
      (if e.type == "destructor" then "        wl_resource_destroy(resource);\n" else "") ++
      "        return;\n" ++
      "    \x7d\n" ++
      "    static_cast<" ++ interfaceName ++ " *>(r->" ++ interfaceNameStripped ++ "Object)->" ++
      snakeCaseToCamelCase e.name false ++ "(r" ++
      concatMapStr (fun a =>
        ", " ++
        (let cType := waylandToCType sc a.type a.interface
         let qtType := waylandToQtType sc a.type a.interface e.request
         let argumentName := snakeCaseToCamelCase a.name false
         if cType == qtType then argumentName
         else if a.type == "string" then "std::string(" ++ argumentName ++ ")"
         else "")) e.arguments ++
      " );\n" ++
      "\x7d\n") i.requests
  else "") ++
  concatMapStr (fun e =>
    "\n" ++
    "void Wayland::Server::" ++ interfaceName ++ "::send" ++ printEvent sc e false false true ++ " \x7b\n" ++
    "    if ( !m_resource ) \x7b\n" ++
    "        return;\n" ++
    "    \x7d\n" ++
    "    send" ++ snakeCaseToCamelCase e.name true ++ "( m_resource->handle" ++
    concatMapStr (fun a => ", " ++ a.name) e.arguments ++
    " );\n" ++
    "\x7d\n" ++
    "\n" ++
    "void Wayland::Server::" ++ interfaceName ++ "::send" ++ printEvent sc e false true true ++ " \x7b\n" ++
    concatMapStr (fun a =>
      if a.type != "array" then "" else
      "    struct wl_array " ++ a.name ++ "_data;\n" ++
      "    " ++ a.name ++ "_data.size = " ++ a.name ++ ".size();\n" ++
      "    " ++ a.name ++ "_data.data = static_cast<void *>(const_cast<char *>(" ++ a.name ++ ".constData()));\n" ++
      "    " ++ a.name ++ "_data.alloc = 0;\n" ++
      "\n") e.arguments ++
    "    " ++ i.name ++ "_send_" ++ e.name ++ "( " ++
    "resource" ++
    concatMapStr (fun a =>
      ", " ++
      (let cType := waylandToCType sc a.type a.interface
       let qtType := waylandToQtType sc a.type a.interface e.request
       if a.type == "string" then a.name ++ ".c_str()"
       else if a.type == "array" then "&" ++ a.name ++ "_data"
       else if cType == qtType then a.name
       else "")) e.arguments ++
    " );\n" ++
    "\x7d\n" ++
    "\n") i.events

/-- `Scribe::generateServerCode`: preamble, one definition block per
non-ignored interface in document order, then a final newline. -/
def generateServerCode (sc : Scribe) (interfaces : List WaylandInterface) : String :=
  serverCodePre sc ++
  emitLoop (fun i => !ignoreInterface sc i.name) (serverCodeBlock sc) interfaces false ++
  "\n"

/-! ## Client header generation (`Scribe::generateClientHeader`) -/

/-- The text `generateClientHeader` writes before the interface loop. -/
def clientHeaderPre (sc : Scribe) : String :=
  (if sc.mHeaderPath.isEmpty then
    "#include \"" ++ protocolHyphen sc ++ "-client.h\"\n"
  else
    "#include <" ++ sc.mHeaderPath ++ "/" ++ protocolHyphen sc ++ "-client.h>\n") ++
  "struct wl_registry;\n" ++
  "\n" ++
  "\n" ++
  "namespace Wayland \x7b\n" ++
  "namespace Client \x7b\n"

/-- The per-interface class declaration emitted by
`generateClientHeader` (the body of its interface loop).
`clientExport` is a default-constructed (empty) byte array in the
source. -/
def clientHeaderBlock (sc : Scribe) (i : WaylandInterface) : String :=
  let interfaceName := snakeCaseToCamelCase i.name true
  let clientExport := ""
  let hasEvents := !i.events.isEmpty
  "    class " ++ clientExport ++ " " ++ interfaceName ++ "\n    \x7b\n" ++
  "    public:\n" ++
  "        " ++ interfaceName ++ "(struct ::wl_registry *registry, uint32_t id, int version);\n" ++
  "        " ++ interfaceName ++ "(struct ::" ++ i.name ++ " *object);\n" ++
  "        " ++ interfaceName ++ "();\n" ++
  "\n" ++
  "        virtual ~" ++ interfaceName ++ "();\n" ++
  "\n" ++
  "        void init(struct ::wl_registry *registry, uint32_t id, int version);\n" ++
  "        void init(struct ::" ++ i.name ++ " *object);\n" ++
  "\n" ++
  "        struct ::" ++ i.name ++ " *object() \x7b return m_" ++ i.name ++ "; \x7d\n" ++
  "        const struct ::" ++ i.name ++ " *object() const \x7b return m_" ++ i.name ++ "; \x7d\n" ++
  "        static " ++ interfaceName ++ " *fromObject(struct ::" ++ i.name ++ " *object);\n" ++
  "\n" ++
  "        bool isInitialized() const;\n" ++
  "\n" ++
  "        uint32_t version() const;" ++
  "\n" ++
  "        static const struct ::wl_interface *interface();\n" ++
  printEnums i.enums ++
  (if !i.requests.isEmpty then
    "\n" ++
    concatMapStr (fun e =>
      "        " ++ clientNewIdReturn e.arguments ++ printEvent sc e ++ ";\n") i.requests
  else "") ++
  (if hasEvents then
    "\n" ++
    "    protected:\n" ++
    concatMapStr (fun e =>
      "        virtual void " ++ printEvent sc e ++ ";\n") i.events
  else "") ++
  "\n" ++
  "    private:\n" ++
  (if hasEvents then
    "        void init_listener();\n" ++
    "        static const struct " ++ i.name ++ "_listener m_" ++ i.name ++ "_listener;\n" ++
    concatMapStr (fun e =>
      "        static void " ++ printEventHandlerSignature sc e i.name ++ ";\n") i.events
  else "") ++
  "        struct ::" ++ i.name ++ " *m_" ++ i.name ++ ";\n" ++
  "    \x7d;\n"

/-- `Scribe::generateClientHeader`. -/
def generateClientHeader (sc : Scribe) (interfaces : List WaylandInterface) : String :=
  clientHeaderPre sc ++
  emitLoop (fun i => !ignoreInterface sc i.name) (clientHeaderBlock sc) interfaces false ++
  "\x7d\n" ++ "\x7d\n" ++ "\n"

/-! ## Client implementation generation (`Scribe::generateClientCode`) -/

/-- The text `generateClientCode` writes before the interface loop
(includes plus the `wlRegistryBind` helper). -/
def clientCodePre (sc : Scribe) : String :=
  (if sc.mHeaderPath.isEmpty then
    "#include \"" ++ protocolHyphen sc ++ "-client.h\"\n" ++
    "#include \"" ++ protocolHyphen sc ++ "-client.hpp\"\n"
  else
    "#include <" ++ sc.mHeaderPath ++ "/" ++ protocolHyphen sc ++ "-client.h>\n" ++
    "#include <" ++ sc.mHeaderPath ++ "/" ++ protocolHyphen sc ++ "-client.hpp>\n") ++
  "\n" ++
  "static inline void *wlRegistryBind(struct ::wl_registry *registry, uint32_t name, const struct ::wl_interface *interface, uint32_t version) \x7b\n" ++
  "    const uint32_t bindOpCode = 0;\n" ++
  "    return (void *) wl_proxy_marshal_constructor_versioned((struct wl_proxy *) registry, " ++
  " bindOpCode, interface, version, name, interface->name, version, nullptr);\n" ++
  "\x7d\n" ++
  "\n"

/-- The `needsComma` loop over a request's arguments in the client
wrapper body: a `new_id` argument with a named interface is skipped; a
`new_id` with no interface becomes `interface, version`. -/
def clientRequestArgsLoop (sc : Scribe) (req : Bool) :
    List WaylandArgument → Bool → String
  | [], _ => ""
  | a :: as, needsComma =>
    let isNewId := a.type == "new_id"
    if isNewId && !a.interface.isEmpty then
      clientRequestArgsLoop sc req as needsComma
    else
      (if needsComma then ", " else "") ++
      (if isNewId then "interface, version"
      else
        let cType := waylandToCType sc a.type a.interface
        let qtType := waylandToQtType sc a.type a.interface req
        if a.type == "string" then a.name ++ ".c_str()"
        else if a.type == "array" then "&" ++ a.name ++ "_data"
        else if cType == qtType then a.name
        else "") ++
      clientRequestArgsLoop sc req as true

/-- The per-interface definitions emitted by `generateClientCode`
(the body of its interface loop). -/
def clientCodeBlock (sc : Scribe) (i : WaylandInterface) : String :=
  let interfaceName := snakeCaseToCamelCase i.name true
  let hasEvents := !i.events.isEmpty
  "Wayland::Client::" ++ interfaceName ++ "::" ++ interfaceName ++ "(struct ::wl_registry *registry, uint32_t id, int version) \x7b\n" ++
  "    init(registry, id, version);\n" ++
  "\x7d\n" ++
  "\n" ++
  "Wayland::Client::" ++ interfaceName ++ "::" ++ interfaceName ++ "(struct ::" ++ i.name ++ " *obj)\n" ++
  "    : m_" ++ i.name ++ "(obj) \x7b\n" ++
  (if hasEvents then "    init_listener();\n" else "") ++
  "\x7d\n" ++
  "\n" ++
  "Wayland::Client::" ++ interfaceName ++ "::" ++ interfaceName ++ "()\n" ++
  "    : m_" ++ i.name ++ "(nullptr) \x7b\n" ++
  "\x7d\n" ++
  "\n" ++
  "Wayland::Client::" ++ interfaceName ++ "::~" ++ interfaceName ++ "() \x7b\n" ++
  "\x7d\n" ++
  "\n" ++
  "void Wayland::Client::" ++ interfaceName ++ "::init(struct ::wl_registry *registry, uint32_t id, int version) \x7b\n" ++
  "    m_" ++ i.name ++ " = static_cast<struct ::" ++ i.name ++ " *>(wlRegistryBind(registry, id, &" ++ i.name ++ "_interface, version));\n" ++
  (if hasEvents then "    init_listener();\n" else "") ++
  "\x7d\n" ++
  "\n" ++
  "void Wayland::Client::" ++ interfaceName ++ "::init(struct ::" ++ i.name ++ " *obj) \x7b\n" ++
  "    m_" ++ i.name ++ " = obj;\n" ++
  (if hasEvents then "    init_listener();\n" else "") ++
  "\x7d\n" ++
  "\n" ++
  "Wayland::Client::" ++ interfaceName ++ " *Wayland::Client::" ++ interfaceName ++ "::fromObject(struct ::" ++ i.name ++ " *object) \x7b\n" ++
  (if hasEvents then
    "    if (wl_proxy_get_listener((struct ::wl_proxy *)object) != (void *)&m_" ++ i.name ++ "_listener)\n" ++
    "        return nullptr;\n"
  else "") ++
  "    return static_cast<Wayland::Client::" ++ interfaceName ++ " *>(" ++ i.name ++ "_get_user_data(object));\n" ++
  "\x7d\n" ++
  "\n" ++
  "bool Wayland::Client::" ++ interfaceName ++ "::isInitialized() const \x7b\n" ++
  "    return m_" ++ i.name ++ " != nullptr;\n" ++
  "\x7d\n" ++
  "\n" ++
  "uint32_t Wayland::Client::" ++ interfaceName ++ "::version() const \x7b\n" ++
  "    return wl_proxy_get_version(reinterpret_cast<wl_proxy*>(m_" ++ i.name ++ "));\n" ++
  "\x7d\n" ++
  "\n" ++
  "const struct wl_interface *Wayland::Client::" ++ interfaceName ++ "::interface() \x7b\n" ++
  "    return &::" ++ i.name ++ "_interface;\n" ++
  "\x7d\n" ++
  concatMapStr (fun e =>
    "\n" ++
    (let new_id := newIdArgument e.arguments
     let new_id_str := clientNewIdReturn e.arguments
     new_id_str ++ " Wayland::Client::" ++ interfaceName ++ "::" ++ printEvent sc e ++ " \x7b\n" ++
     concatMapStr (fun a =>
       if a.type != "array" then "" else
       "    struct wl_array " ++ a.name ++ "_data;\n" ++
       "    " ++ a.name ++ "_data.size = " ++ a.name ++ ".size();\n" ++
       "    " ++ a.name ++ "_data.data = static_cast<void *>(const_cast<char *>(" ++ a.name ++ ".constData()));\n" ++
       "    " ++ a.name ++ "_data.alloc = 0;\n" ++
       "\n") e.arguments ++
     (let actualArgumentCount := if new_id.isSome then e.arguments.length - 1 else e.arguments.length
      "    " ++ (if new_id.isSome then "return " else "") ++ "::" ++ i.name ++ "_" ++ e.name ++ "( " ++
      "m_" ++ i.name ++ (if actualArgumentCount > 0 then ", " else "") ++
      clientRequestArgsLoop sc e.request e.arguments false) ++
     " );\n" ++
     (if e.type == "destructor" then "    m_" ++ i.name ++ " = nullptr;\n" else "") ++
     "\x7d\n")) i.requests ++
  (if hasEvents then
    "\n" ++
    concatMapStr (fun e =>
      "void Wayland::Client::" ++ interfaceName ++ "::" ++ printEvent sc e true ++ " \x7b\n" ++
      "\x7d\n" ++
      "\n" ++
      "void Wayland::Client::" ++ interfaceName ++ "::" ++
      printEventHandlerSignature sc e i.name ++ " \x7b\n" ++
      "    static_cast<Wayland::Client::" ++ interfaceName ++ " *>(data)->" ++
      snakeCaseToCamelCase e.name false ++ "( " ++
      sepLoop ", "
        (fun a =>
          if a.type == "string" then
            "std::string(" ++ snakeCaseToCamelCase a.name false ++ ")"
          else
            snakeCaseToCamelCase a.name false)
        e.arguments false ++
      " );\n" ++
      "\x7d\n" ++
      "\n") i.events ++
    "const struct " ++ i.name ++ "_listener Wayland::Client::" ++ interfaceName ++ "::m_" ++ i.name ++ "_listener = \x7b\n" ++
    concatMapStr (fun e =>
      "    Wayland::Client::" ++ interfaceName ++ "::handle" ++ snakeCaseToCamelCase e.name true ++ ",\n")
      i.events ++
    "\x7d;\n" ++
    "\n" ++
    "void Wayland::Client::" ++ interfaceName ++ "::init_listener() \x7b\n" ++
    "    " ++ i.name ++ "_add_listener(m_" ++ i.name ++ ", &m_" ++ i.name ++ "_listener, this);\n" ++
    "\x7d\n"
  else "")

/-- `Scribe::generateClientCode`. -/
def generateClientCode (sc : Scribe) (interfaces : List WaylandInterface) : String :=
  clientCodePre sc ++
  emitLoop (fun i => !ignoreInterface sc i.name) (clientCodeBlock sc) interfaces false ++
  "\n"

/-! ## Run-mode configuration and the top-level `process` operation -/

/-- `Scribe::setRunMode`.  `QString::replace(".xml", ...)` replaces
every occurrence of ".xml" (Lean's `String.replace` has the same
replace-all semantics); the original `specFile` was already stored in
`mProtocolFilePath` before the replacement. -/
def setRunMode (sc : Scribe) (specFile : String) (server : Bool) (file : Nat) (output : String) :
    Scribe :=
  let sc := { sc with mProtocolFilePath := specFile }
  let sc := if server then { sc with mServer := true } else sc
  let output :=
    if output.isEmpty then
      qReplace specFile ".xml" (if sc.mServer then "-server" else "-client")
    else output
  let sc := { sc with mFile := file }
  if file == 0 then
    { sc with mOutputSrcPath := output ++ "%1.cpp", mOutputHdrPath := output ++ "%1.hpp" }
  else if file == 1 then
    if hasSuffix output 'c' == false then { sc with mOutputSrcPath := output ++ ".cpp" }
    else { sc with mOutputSrcPath := output }
  else if file == 2 then
    if hasSuffix output 'h' == false then { sc with mOutputHdrPath := output ++ ".hpp" }
    else { sc with mOutputHdrPath := output }
  else sc

/-- `Scribe::setArgs`: each extra include is stored wrapped in angle
brackets. -/
def setArgs (sc : Scribe) (headerPath : String) (pfx : String) (includes : List String) :
    Scribe :=
  { sc with
    mHeaderPath := headerPath
    mPrefix := pfx
    mIncludes := sc.mIncludes ++ includes.map (fun inc => "<" ++ inc ++ ">") }

/-- The `writeHeader` lambda inside `Scribe::process`: provenance
comment, optional `#pragma once`, extra includes, `<string>`. -/
def writeHeader (sc : Scribe) (isHeader : Bool) : String :=
  "// This file was generated by " ++ sc.mScannerName ++ " " ++ sc.projectVersion ++ "\n" ++
  "// Source: " ++ sc.mProtocolFilePath ++ "\n\n" ++
  (if isHeader then "#pragma once\n" ++ "\n" else "") ++
  concatMapStr (fun b => "#include " ++ b ++ "\n") sc.mIncludes ++
  "#include <string>\n"

/-- The input document as `process` observes it through
`QXmlStreamReader`: whether the file could be opened, the root element
(`none` when `readNextStartElement` fails at the top), and whether the
reader reports an error after the interface elements were consumed
(malformed XML further down). -/
structure XmlDocument where
  readable : Bool
  root : Option XmlElem
  laterError : Bool

/-- Result of `Scribe::process`: the boolean outcome and the output
files opened and written, in order, as (path, full content) pairs. -/
structure ProcessResult where
  ok : Bool
  files : List (String × String)
deriving DecidableEq

/-- `Scribe::process`.  File-system path absolutization
(`QFileInfo::absoluteFilePath`) is modelled as the identity on paths,
and `fopen` of an output file is assumed to succeed; everything else
follows the source's control flow: every failure return happens before
any output file is opened. -/
def process (sc : Scribe) (doc : XmlDocument) : ProcessResult :=
  if !doc.readable then { ok := false, files := [] }
  else
    match doc.root with
    | none => { ok := false, files := [] }
    | some root =>
      if root.tag != "protocol" then { ok := false, files := [] }
      else
        let sc := { sc with mProtocolName := byteArrayValue root "name" }
        if sc.mProtocolName.isEmpty then { ok := false, files := [] }
        else
          let interfaces :=
            (root.children.filter (fun c => c.tag == "interface")).map readInterface
          if doc.laterError then { ok := false, files := [] }
          else
            let headerPath :=
              if sc.mFile == 0 then
                qReplace sc.mOutputHdrPath "%1" (if sc.mServer then "-server" else "-client")
              else sc.mOutputHdrPath
            let codePath :=
              if sc.mFile == 0 then
                qReplace sc.mOutputSrcPath "%1" (if sc.mServer then "-server" else "-client")
              else sc.mOutputSrcPath
            if sc.mServer then
              { ok := true
                files :=
                  (if sc.mFile == 0 || sc.mFile == 2 then
                    [(headerPath, writeHeader sc true ++ generateServerHeader sc interfaces)]
                  else []) ++
                  (if sc.mFile == 0 || sc.mFile == 1 then
                    [(codePath, writeHeader sc false ++ generateServerCode sc interfaces)]
                  else []) }
            else
              { ok := true
                files :=
                  (if sc.mFile == 0 || sc.mFile == 2 then
                    [(headerPath, writeHeader sc true ++ generateClientHeader sc interfaces)]
                  else []) ++
                  (if sc.mFile == 0 || sc.mFile == 1 then
                    [(codePath, writeHeader sc false ++ generateClientCode sc interfaces)]
                  else []) }

/-! ## Derived definitions used by the statements -/

/-- The interfaces that survive the `ignoreInterface` skip, in document
order: exactly the interfaces every generator emits a block for. -/
def keptInterfaces (sc : Scribe) (interfaces : List WaylandInterface) : List WaylandInterface :=
  interfaces.filter (fun i => !ignoreInterface sc i.name)

/-- One dispatch-table entry: the handler pointer for one request. -/
def serverDispatchEntry (interfaceName : String) (e : WaylandEvent) : String :=
  "\n" ++ "    Wayland::Server::" ++ interfaceName ++ "::handle" ++
    snakeCaseToCamelCase e.name true

/-- Positional restatement of the `nextToUpper` loop: pair every
character with the flag "the previous character was an underscore"
(the very first character instead gets the `capitalize` flag), drop
the underscores, upper-case the flagged characters, leave the rest
unchanged. -/
def camelVia (capitalize : Bool) (l : List Char) : List Char :=
  (l.zip (capitalize :: l.map (fun c => c == '_'))).filterMap
    (fun p => if p.1 == '_' then none else some (if p.2 then p.1.toUpper else p.1))

/-- Two parsed interfaces that agree on everything except the
`version` field parsed from the `version` attribute. -/
def sameExceptVersion (i j : WaylandInterface) : Prop :=
  i.name = j.name ∧ i.enums = j.enums ∧ i.events = j.events ∧ i.requests = j.requests

/-! ## Loop-to-join lemmas -/

theorem sepLoop_eq (sep : String) (f : α → String) :
    ∀ (l : List α) (b : Bool),
      sepLoop sep f l b = (if b && !l.isEmpty then sep else "") ++ sepJoin sep (l.map f) := by
  intro l
  induction l with
  | nil => intro b; simp [sepLoop, sepJoin, String.append_empty]
  | cons x xs ih =>
    intro b
    rw [sepLoop, ih true]
    cases xs with
    | nil =>
      simp [sepJoin, String.append_empty, String.empty_append]
    | cons y ys =>
      cases b with
      | false =>
        simp only [Bool.false_and, if_neg (by simp : ¬ (false = true))]
        simp [sepJoin, String.empty_append, String.append_assoc]
      | true =>
        simp [sepJoin, String.empty_append, String.append_assoc]

theorem sepLoop_false (sep : String) (f : α → String) (l : List α) :
    sepLoop sep f l false = sepJoin sep (l.map f) := by
  rw [sepLoop_eq]
  simp [String.empty_append]

theorem emitLoop_eq_sepLoop (keep : α → Bool) (block : α → String) :
    ∀ (l : List α) (b : Bool),
      emitLoop keep block l b = sepLoop "\n" block (l.filter keep) b := by
  intro l
  induction l with
  | nil => intro b; simp [emitLoop, List.filter_nil, sepLoop]
  | cons x xs ih =>
    intro b
    by_cases h : keep x
    · rw [emitLoop, if_pos h, List.filter_cons, if_pos h, sepLoop, ih true]
    · rw [emitLoop, if_neg h, List.filter_cons, if_neg h, ih b]

theorem emitLoop_false (keep : α → Bool) (block : α → String) (l : List α) :
    emitLoop keep block l false = sepJoin "\n" ((l.filter keep).map block) := by
  rw [emitLoop_eq_sepLoop, sepLoop_false]

/-! ## Claim theorems -/

/-- C1: for every input document and both roles, each of the four
generators emits exactly one block per non-ignored interface, in the
document order of the interface list (the kept list is an
order-preserving sublist of the document list), and the per-interface
dispatch table of request-handler pointers lists exactly one handler
per request in request declaration order.  (Within a block, the
enum/event/request sub-loops are the in-order `concatMapStr` maps
visible in the block definitions.) -/
theorem emission_preserves_document_order (sc : Scribe) (interfaces : List WaylandInterface) :
    generateServerHeader sc interfaces =
      serverHeaderPre sc ++
        sepJoin "\n" ((keptInterfaces sc interfaces).map (serverHeaderBlock sc)) ++
        "\x7d\n" ++ "\x7d\n" ++ "\n" ∧
    generateServerCode sc interfaces =
      serverCodePre sc ++
        sepJoin "\n" ((keptInterfaces sc interfaces).map (serverCodeBlock sc)) ++ "\n" ∧
    generateClientHeader sc interfaces =
      clientHeaderPre sc ++
        sepJoin "\n" ((keptInterfaces sc interfaces).map (clientHeaderBlock sc)) ++
        "\x7d\n" ++ "\x7d\n" ++ "\n" ∧
    generateClientCode sc interfaces =
      clientCodePre sc ++
        sepJoin "\n" ((keptInterfaces sc interfaces).map (clientCodeBlock sc)) ++ "\n" ∧
    (keptInterfaces sc interfaces).Sublist interfaces ∧
    ∀ (interfaceName : String) (requests : List WaylandEvent),
      serverDispatchEntriesLoop interfaceName requests =
        sepJoin "," (requests.map (serverDispatchEntry interfaceName)) ∧
      (requests.map (serverDispatchEntry interfaceName)).length = requests.length := by
  refine ⟨?_, ?_, ?_, ?_, ?_, ?_⟩
  · simp only [generateServerHeader, keptInterfaces]
    rw [emitLoop_false]
  · simp only [generateServerCode, keptInterfaces]
    rw [emitLoop_false]
  · simp only [generateClientHeader, keptInterfaces]
    rw [emitLoop_false]
  · simp only [generateClientCode, keptInterfaces]
    rw [emitLoop_false]
  · exact List.filter_sublist interfaces
  · intro interfaceName requests
    constructor
    · simp only [serverDispatchEntriesLoop]
      rw [sepLoop_false]
      rfl
    · exact List.length_map requests _

/-- C2: an interface named `wl_display` is never among the emitted
(kept) interfaces for either role; `wl_registry` is not emitted when
the role is server but is emitted when the role is client; every other
interface of the list is emitted.  Restricting every generator's input
to the kept interfaces leaves all four outputs unchanged, so the
excluded interfaces contribute nothing to any output. -/
theorem bootstrap_interfaces_excluded (sc : Scribe) (interfaces : List WaylandInterface) :
    (∀ i ∈ keptInterfaces sc interfaces, i.name ≠ "wl_display") ∧
    (sc.mServer = true → ∀ i ∈ keptInterfaces sc interfaces, i.name ≠ "wl_registry") ∧
    (sc.mServer = false → ∀ i ∈ interfaces, i.name = "wl_registry" →
      i ∈ keptInterfaces sc interfaces) ∧
    (∀ i ∈ interfaces, i.name ≠ "wl_display" →
      ¬(sc.mServer = true ∧ i.name = "wl_registry") → i ∈ keptInterfaces sc interfaces) ∧
    generateServerHeader sc interfaces =
      generateServerHeader sc (keptInterfaces sc interfaces) ∧
    generateServerCode sc interfaces =
      generateServerCode sc (keptInterfaces sc interfaces) ∧
    generateClientHeader sc interfaces =
      generateClientHeader sc (keptInterfaces sc interfaces) ∧
    generateClientCode sc interfaces =
      generateClientCode sc (keptInterfaces sc interfaces) := by
  have hfil : ∀ i : WaylandInterface,
      i ∈ keptInterfaces sc interfaces ↔
        i ∈ interfaces ∧ ignoreInterface sc i.name = false := by
    intro i
    simp [keptInterfaces, List.mem_filter]
  have hign : ∀ nm : String, ignoreInterface sc nm = false ↔
      nm ≠ "wl_display" ∧ ¬(sc.mServer = true ∧ nm = "wl_registry") := by
    intro nm
    simp only [ignoreInterface]
    constructor
    · intro h
      rcases Bool.or_eq_false_iff.mp h with ⟨h1, h2⟩
      rcases Bool.and_eq_false_iff.mp h2 with h2 | h2
      · refine ⟨by simpa using h1, ?_⟩
        rintro ⟨hs, _⟩
        rw [hs] at h2
        simp at h2
      · exact ⟨by simpa using h1, by rintro ⟨_, hr⟩; rw [hr] at h2; simp at h2⟩
    · rintro ⟨h1, h2⟩
      rw [Bool.or_eq_false_iff]
      refine ⟨by simpa using h1, ?_⟩
      rw [Bool.and_eq_false_iff]
      by_cases hs : sc.mServer = true
      · right
        rw [beq_eq_false_iff_ne]
        intro hr
        exact h2 ⟨hs, hr⟩
      · left
        simpa using hs
  have hkk : keptInterfaces sc (keptInterfaces sc interfaces) = keptInterfaces sc interfaces := by
    simp [keptInterfaces, List.filter_filter]
  refine ⟨?_, ?_, ?_, ?_, ?_, ?_, ?_, ?_⟩
  · intro i hi
    exact (((hign i.name).mp ((hfil i).mp hi).2)).1
  · intro hs i hi
    intro hr
    exact (((hign i.name).mp ((hfil i).mp hi).2)).2 ⟨hs, hr⟩
  · intro hs i hi hr
    refine (hfil i).mpr ⟨hi, (hign i.name).mpr ⟨by rw [hr]; decide, ?_⟩⟩
    rintro ⟨hs', _⟩
    rw [hs] at hs'
    exact Bool.false_ne_true hs'
  · intro i hi h1 h2
    exact (hfil i).mpr ⟨hi, (hign i.name).mpr ⟨h1, h2⟩⟩
  · simp only [generateServerHeader]
    rw [emitLoop_false, emitLoop_false, ← keptInterfaces, ← keptInterfaces, hkk]
  · simp only [generateServerCode]
    rw [emitLoop_false, emitLoop_false, ← keptInterfaces, ← keptInterfaces, hkk]
  · simp only [generateClientHeader]
    rw [emitLoop_false, emitLoop_false, ← keptInterfaces, ← keptInterfaces, hkk]
  · simp only [generateClientCode]
    rw [emitLoop_false, emitLoop_false, ← keptInterfaces, ← keptInterfaces, hkk]

/-- Witness for C2: on the document `[wl_display, wl_registry, custom]`
the server run keeps `custom`, and a client run keeps `wl_registry`. -/
theorem bootstrap_interfaces_excluded_witness :
    (⟨"custom", 1, [], [], []⟩ : WaylandInterface) ∈
      keptInterfaces { mServer := true }
        [⟨"wl_display", 1, [], [], []⟩, ⟨"wl_registry", 1, [], [], []⟩,
         ⟨"custom", 1, [], [], []⟩] ∧
    (⟨"wl_registry", 1, [], [], []⟩ : WaylandInterface) ∈
      keptInterfaces { mServer := false } [⟨"wl_registry", 1, [], [], []⟩] := by
  constructor
  · exact (bootstrap_interfaces_excluded { mServer := true } _).2.2.2.1 _ (by simp)
      (by decide) (by rintro ⟨_, h⟩; exact absurd h (by decide))
  · exact (bootstrap_interfaces_excluded { mServer := false } _).2.2.1 rfl _ (by simp) rfl

/-- C3: the wire-type mapping sends `object`/`new_id` to the opaque
`wl_resource` pointer whenever the role is server (regardless of the
interface name); on the client role to the generic `wl_object` pointer
when the interface name is empty and to a pointer to the named
interface struct otherwise; any tag outside the recognized set is
returned verbatim. -/
theorem waylandToCType_object_mapping (sc : Scribe) (tag iface : String) :
    (sc.mServer = true → (tag = "object" ∨ tag = "new_id") →
      waylandToCType sc tag iface = "struct ::wl_resource *") ∧
    (sc.mServer = false → (tag = "object" ∨ tag = "new_id") → iface = "" →
      waylandToCType sc tag iface = "struct ::wl_object *") ∧
    (sc.mServer = false → (tag = "object" ∨ tag = "new_id") → iface ≠ "" →
      waylandToCType sc tag iface = "struct ::" ++ iface ++ " *") ∧
    (tag ∉ (["string", "int", "uint", "fixed", "fd", "array", "object", "new_id"] : List String) →
      waylandToCType sc tag iface = tag) := by
  refine ⟨?_, ?_, ?_, ?_⟩
  · intro hs htag
    rcases htag with rfl | rfl <;> simp [waylandToCType, hs]
  · intro hs htag hif
    subst hif
    rcases htag with rfl | rfl <;> simp [waylandToCType, hs] <;> decide
  · intro hs htag hif
    have hif' : iface.isEmpty = false := by
      rw [← Bool.not_eq_true]
      intro h
      exact hif ((String.isEmpty_iff iface).mp h)
    rcases htag with rfl | rfl <;> simp [waylandToCType, hs, hif']
  · intro htag
    simp only [List.mem_cons, List.not_mem_nil, or_false, not_or] at htag
    obtain ⟨h1, h2, h3, h4, h5, h6, h7, h8⟩ := htag
    simp [waylandToCType, beq_eq_false_iff_ne, h1, h2, h3, h4, h5, h6, h7, h8]

/-- Witness for C3: concrete instances of the spec's test table —
`("object","foo")` on the server role maps to the resource-handle type,
`("object","")` resp. `("object","foo")` on the client role map to the
generic and the named pointer type, and the unrecognized tag `blob`
passes through. -/
theorem waylandToCType_object_mapping_witness :
    waylandToCType { mServer := true } "object" "foo" = "struct ::wl_resource *" ∧
    waylandToCType { mServer := false } "object" "" = "struct ::wl_object *" ∧
    waylandToCType { mServer := false } "new_id" "foo" = "struct ::" ++ "foo" ++ " *" ∧
    waylandToCType { mServer := false } "blob" "foo" = "blob" := by
  refine ⟨?_, ?_, ?_, ?_⟩
  · exact (waylandToCType_object_mapping { mServer := true } "object" "foo").1 rfl (Or.inl rfl)
  · exact (waylandToCType_object_mapping { mServer := false } "object" "").2.1 rfl
      (Or.inl rfl) rfl
  · exact (waylandToCType_object_mapping { mServer := false } "new_id" "foo").2.2.1 rfl
      (Or.inr rfl) (by decide)
  · exact (waylandToCType_object_mapping { mServer := false } "blob" "foo").2.2.2 (by decide)

/-- Helper for C4: the `nextToUpper` state loop equals the positional
restatement `camelVia`. -/
theorem snakeToCamelGo_eq_camelVia :
    ∀ (l : List Char) (cap : Bool), snakeToCamelGo cap l = camelVia cap l := by
  intro l
  induction l with
  | nil => intro cap; simp [snakeToCamelGo, camelVia]
  | cons c cs ih =>
    intro cap
    by_cases h : c = '_'
    · rw [snakeToCamelGo, if_pos (by simp [h]), ih true]
      simp [camelVia, List.filterMap_cons, h]
    · rw [snakeToCamelGo, if_neg (by simp [h]), ih false]
      have hb : (c == '_') = false := beq_eq_false_iff_ne.mpr h
      simp [camelVia, List.filterMap_cons, h, hb]

/-- C4 counterexample: the claim says that with `capitalizeFirst =
false` the very first character of the result is lower-cased; the code
leaves it unchanged, so `"Foo"` stays `"Foo"` instead of becoming
`"foo"`. -/
theorem toIdentifierCase_counterexample :
    snakeCaseToCamelCase "Foo" false = "Foo" ∧ snakeCaseToCamelCase "Foo" false ≠ "foo" := by
  constructor
  · rfl
  · decide

/-- C4 amended: `toIdentifierCase(name, capitalizeFirst)` removes every
underscore and upper-cases every character that immediately follows an
underscore (hence the first letter of every later underscore-delimited
segment); the very first character of the input is upper-cased when
`capitalizeFirst` is true and left unchanged (not lower-cased) when it
is false. -/
theorem toIdentifierCase_characterization (s : String) (capitalize : Bool) :
    (snakeCaseToCamelCase s capitalize).data = camelVia capitalize s.data :=
  snakeToCamelGo_eq_camelVia s.data capitalize

/-- C5: `stripInterfaceName` applies exactly one of three branches,
first match wins: a configured non-empty prefix that matches is
stripped (by its length); otherwise a `qt_`/`wl_` prefix loses exactly
3 characters; otherwise the name is case-converted unchanged. -/
theorem stripInterfaceName_first_match_wins (sc : Scribe) (name : String) (capitalize : Bool) :
    (sc.mPrefix.isEmpty = false → qStartsWith name sc.mPrefix = true →
      stripInterfaceName sc name capitalize =
        snakeCaseToCamelCase (qDrop name sc.mPrefix.length) capitalize) ∧
    ((sc.mPrefix.isEmpty = true ∨ qStartsWith name sc.mPrefix = false) →
      (qStartsWith name "qt_" = true ∨ qStartsWith name "wl_" = true) →
      stripInterfaceName sc name capitalize =
        snakeCaseToCamelCase (qDrop name 3) capitalize) ∧
    ((sc.mPrefix.isEmpty = true ∨ qStartsWith name sc.mPrefix = false) →
      qStartsWith name "qt_" = false → qStartsWith name "wl_" = false →
      stripInterfaceName sc name capitalize = snakeCaseToCamelCase name capitalize) := by
  refine ⟨?_, ?_, ?_⟩
  · intro h1 h2
    simp [stripInterfaceName, h1, h2]
  · intro h1 h2
    rcases h1 with h1 | h1 <;> rcases h2 with h2 | h2 <;>
      simp [stripInterfaceName, h1, h2]
  · intro h1 h2 h3
    rcases h1 with h1 | h1 <;> simp [stripInterfaceName, h1, h2, h3]

/-- Witness for C5: one concrete instance per branch — a configured
prefix `xdg_`, the built-in `wl_` prefix, and no prefix at all. -/
theorem stripInterfaceName_first_match_wins_witness :
    stripInterfaceName { mPrefix := "xdg_" } "xdg_wm_base" false =
      snakeCaseToCamelCase "wm_base" false ∧
    stripInterfaceName { mPrefix := "" } "wl_output" true =
      snakeCaseToCamelCase "output" true ∧
    stripInterfaceName { mPrefix := "" } "zwp_tablet" false =
      snakeCaseToCamelCase "zwp_tablet" false := by
  refine ⟨?_, ?_, ?_⟩
  · exact ((stripInterfaceName_first_match_wins { mPrefix := "xdg_" } "xdg_wm_base" false).1
      (by decide) (by decide)).trans (by decide)
  · exact ((stripInterfaceName_first_match_wins { mPrefix := "" } "wl_output" true).2.1
      (Or.inl (by decide)) (Or.inr (by decide))).trans (by decide)
  · exact (stripInterfaceName_first_match_wins { mPrefix := "" } "zwp_tablet" false).2.2
      (Or.inl (by decide)) (by decide) (by decide)

/-- C6: `process` either succeeds with every requested artifact
written (two files in both-files mode, one in source-only or
header-only mode), or returns false with no output file opened; in
particular a missing root element, a wrong root tag, or an
absent/empty protocol name yields `false` and an empty write trace. -/
theorem process_fails_before_output (sc : Scribe) (doc : XmlDocument) :
    ((process sc doc).ok = false → (process sc doc).files = []) ∧
    (doc.root = none → (process sc doc).ok = false ∧ (process sc doc).files = []) ∧
    (∀ r, doc.root = some r → r.tag ≠ "protocol" →
      (process sc doc).ok = false ∧ (process sc doc).files = []) ∧
    (∀ r, doc.root = some r → byteArrayValue r "name" = "" →
      (process sc doc).ok = false ∧ (process sc doc).files = []) ∧
    ((process sc doc).ok = true →
      (sc.mFile = 0 → (process sc doc).files.length = 2) ∧
      ((sc.mFile = 1 ∨ sc.mFile = 2) → (process sc doc).files.length = 1)) := by
  have key : ((process sc doc).ok = false ∧ (process sc doc).files = []) ∨
      ((process sc doc).ok = true ∧ doc.root ≠ none ∧
       (∀ r, doc.root = some r → r.tag = "protocol" ∧ byteArrayValue r "name" ≠ "") ∧
       (sc.mFile = 0 → (process sc doc).files.length = 2) ∧
       ((sc.mFile = 1 ∨ sc.mFile = 2) → (process sc doc).files.length = 1)) := by
    by_cases hread : doc.readable = true
    · cases hroot : doc.root with
      | none => left; simp [process, hread, hroot]
      | some r =>
        by_cases htag : r.tag = "protocol"
        · by_cases hname : byteArrayValue r "name" = ""
          · left
            have hemp : ("" : String).isEmpty = true := by decide
            simp [process, hread, hroot, htag, hname, hemp]
          · by_cases herr : doc.laterError = true
            · left
              simp [process, hread, hroot, htag, herr, String.isEmpty_iff, hname]
            · right
              have hD : ∀ A B : List (String × String),
                  process sc doc = { ok := true, files := A ++ B } →
                  (process sc doc).ok = true ∧ (process sc doc).files = A ++ B := by
                intro A B h
                rw [h]
                exact ⟨rfl, rfl⟩
              have hps : (process sc doc).ok = true := by
                by_cases hserv : sc.mServer = true <;>
                  simp [process, hread, hroot, htag, herr, String.isEmpty_iff, hname, hserv]
              refine ⟨hps, by simp [hroot], ?_, ?_, ?_⟩
              · intro r' hr'
                have hrr : r = r' := Option.some.inj hr'
                subst hrr
                exact ⟨htag, hname⟩
              · intro hf
                by_cases hserv : sc.mServer = true <;>
                  simp [process, hread, hroot, htag, herr, String.isEmpty_iff, hname, hf, hserv]
              · intro hf
                rcases hf with hf | hf <;> by_cases hserv : sc.mServer = true <;>
                  simp [process, hread, hroot, htag, herr, String.isEmpty_iff, hname, hf, hserv]
        · left
          have htag' : (r.tag != "protocol") = true := by
            simp [bne_iff_ne, htag]
          simp [process, hread, hroot, htag']
    · left
      have : doc.readable = false := by simpa using hread
      simp [process, this]
  refine ⟨?_, ?_, ?_, ?_, ?_⟩
  · intro h
    rcases key with ⟨_, hf⟩ | ⟨hok, _⟩
    · exact hf
    · rw [hok] at h
      exact absurd h (by simp)
  · intro hroot
    rcases key with hk | ⟨_, hne, _⟩
    · exact hk
    · exact absurd hroot hne
  · intro r hroot htag
    rcases key with hk | ⟨_, _, hall, _⟩
    · exact hk
    · exact absurd ((hall r hroot).1) htag
  · intro r hroot hname
    rcases key with hk | ⟨_, _, hall, _⟩
    · exact hk
    · exact absurd hname ((hall r hroot).2)
  · intro hok
    rcases key with ⟨hk, _⟩ | ⟨_, _, _, h2, h1⟩
    · rw [hk] at hok
      exact absurd hok (by simp)
    · exact ⟨h2, h1⟩

/-- Witness for C6: a document with no root element, and one with a
wrong root tag, both make `process` fail with nothing written. -/
theorem process_fails_before_output_witness :
    (process ({} : Scribe) ⟨true, none, false⟩).ok = false ∧
    (process ({} : Scribe) ⟨true, none, false⟩).files = [] ∧
    (process ({} : Scribe) ⟨true, some (XmlElem.mk "html" [] []), false⟩).files = [] := by
  have h2 := (process_fails_before_output ({} : Scribe) ⟨true, none, false⟩).2.1 rfl
  have h3 := (process_fails_before_output ({} : Scribe)
    ⟨true, some (XmlElem.mk "html" [] []), false⟩).2.2.1
    (XmlElem.mk "html" [] []) rfl (by decide)
  exact ⟨h2.1, h2.2, h3.2⟩

/-- C7 (against the code): evaluating the output-name derivation of
`setRunMode`/`process` at the default invocation — input
`hello-world.xml`, server role, both-files mode, no explicit output —
shows the role suffix is appended twice: once when `.xml` is replaced
by `-server`, and again when the `%1` slot of the stored path patterns
is filled in `process`.  The repo's own example artifacts
(src/example/server) carry the single-suffix names
`hello-world-server.hpp`/`.cpp` the claim describes. -/
theorem setRunMode_doubles_role_suffix :
    (setRunMode ({} : Scribe) "hello-world.xml" true 0 "").mOutputHdrPath
      = "hello-world-server%1.hpp" ∧
    qReplace (setRunMode ({} : Scribe) "hello-world.xml" true 0 "").mOutputHdrPath
      "%1" "-server" = "hello-world-server-server.hpp" ∧
    qReplace (setRunMode ({} : Scribe) "hello-world.xml" true 0 "").mOutputSrcPath
      "%1" "-server" = "hello-world-server-server.cpp" ∧
    ("hello-world-server-server.hpp" : String) ≠ "hello-world-server.hpp" ∧
    (setRunMode ({} : Scribe) "hello-world.xml" true 2 "out").mOutputHdrPath = "out.hpp" ∧
    (setRunMode ({} : Scribe) "hello-world.xml" true 2 "out.hpp").mOutputHdrPath = "out.hpp" := by
  exact ⟨by decide, by decide, by decide, by decide, by decide, by decide⟩

/-- C8: `newIdArgument` returns the first argument (in argument order)
whose type is `new_id`, and `none` when there is none; the client
wrapper return type derived from it depends only on that first match,
so a second `new_id` argument is ignored by this downstream rendering. -/
theorem newIdArgument_first_match (args : List WaylandArgument) :
    (newIdArgument args = none ↔ ∀ a ∈ args, a.type ≠ "new_id") ∧
    (∀ (pre : List WaylandArgument) (a : WaylandArgument) (post : List WaylandArgument),
      args = pre ++ a :: post → (∀ b ∈ pre, b.type ≠ "new_id") → a.type = "new_id" →
      newIdArgument args = some a) ∧
    (∀ (a : WaylandArgument) (rest rest' : List WaylandArgument), a.type = "new_id" →
      clientNewIdReturn (a :: rest) = clientNewIdReturn (a :: rest')) := by
  refine ⟨?_, ?_, ?_⟩
  · induction args with
    | nil => simp [newIdArgument]
    | cons a as ih =>
      by_cases h : a.type = "new_id"
      · simp [newIdArgument, h]
      · have hb : (a.type == "new_id") = false := beq_eq_false_iff_ne.mpr h
        simp [newIdArgument, hb, ih, h]
  · intro pre a post hargs hpre ha
    subst hargs
    induction pre with
    | nil => simp [newIdArgument, ha]
    | cons b bs ih =>
      have hb : (b.type == "new_id") = false :=
        beq_eq_false_iff_ne.mpr (hpre b (by simp))
      rw [List.cons_append, newIdArgument, if_neg (by simp [hb])]
      exact ih (fun x hx => hpre x (by simp [hx]))
  · intro a rest rest' ha
    simp [clientNewIdReturn, newIdArgument, ha]

/-- Witness for C8: an event with two `new_id` arguments — the lookup
returns the first, and the wrapper return type ignores the second. -/
theorem newIdArgument_first_match_witness :
    newIdArgument
        [⟨"x", "new_id", "foo", "", false⟩, ⟨"y", "new_id", "bar", "", false⟩]
      = some ⟨"x", "new_id", "foo", "", false⟩ ∧
    clientNewIdReturn
        [⟨"x", "new_id", "foo", "", false⟩, ⟨"y", "new_id", "bar", "", false⟩]
      = clientNewIdReturn [⟨"x", "new_id", "foo", "", false⟩] := by
  constructor
  · exact (newIdArgument_first_match _).2.1 [] ⟨"x", "new_id", "foo", "", false⟩
      [⟨"y", "new_id", "bar", "", false⟩] rfl (by simp) rfl
  · exact (newIdArgument_first_match []).2.2 ⟨"x", "new_id", "foo", "", false⟩
      [⟨"y", "new_id", "bar", "", false⟩] [] rfl

/-- `concatMapStr` distributes over list append. -/
theorem concatMapStr_append (f : α → String) (l1 l2 : List α) :
    concatMapStr f (l1 ++ l2) = concatMapStr f l1 ++ concatMapStr f l2 := by
  induction l1 with
  | nil => simp [concatMapStr, String.empty_append]
  | cons x xs ih => simp [concatMapStr, ih, String.append_assoc]

/-- C9: the enum entry's `value` attribute text is stored unmodified by
`readEnum`, and `printEnums` splices that stored text verbatim into the
generated enumeration (so `value="0x04"` renders the literal `0x04`,
never a decimal-converted form). -/
theorem enum_value_emitted_verbatim (el : XmlElem) (enums : List WaylandEnum) :
    ((readEnum el).entries.map (fun en => en.value) =
      (el.children.filter (fun c => c.tag == "entry")).map
        (fun c => byteArrayValue c "value")) ∧
    (∀ e ∈ enums, ∀ entry ∈ e.entries, ∃ p q : String,
      printEnums enums =
        p ++ (e.name ++ "_" ++ entry.name ++ " = " ++ entry.value ++ ",") ++ q) ∧
    printEnums [⟨"mode", [⟨"flag", "0x04", none⟩]⟩] =
      "\n        enum class mode \x7b\n            mode_flag = 0x04,\n        \x7d;\n" := by
  refine ⟨?_, ?_, ?_⟩
  · simp [readEnum, List.map_map]
  · intro e he entry hent
    obtain ⟨s, t, rfl⟩ := List.append_of_mem he
    obtain ⟨u, v, hsplit⟩ := List.append_of_mem hent
    refine ⟨concatMapStr (fun e => "\n" ++ "        enum class " ++ e.name ++ " \x7b\n" ++
        concatMapStr (printEnumEntry e.name) e.entries ++ "        \x7d;\n") s ++
        "\n" ++ "        enum class " ++ e.name ++ " \x7b\n" ++
        concatMapStr (printEnumEntry e.name) u ++ "            ",
      (match entry.summary with | some su => " // " ++ su | none => "") ++ "\n" ++
        concatMapStr (printEnumEntry e.name) v ++ "        \x7d;\n" ++
        concatMapStr (fun e => "\n" ++ "        enum class " ++ e.name ++ " \x7b\n" ++
          concatMapStr (printEnumEntry e.name) e.entries ++ "        \x7d;\n") t, ?_⟩
    rw [printEnums, concatMapStr_append]
    simp only [concatMapStr, hsplit, concatMapStr_append, printEnumEntry]
    simp [String.append_assoc]
  · decide

/-- Witness for C9: the `0x04` entry of a concrete enum appears
verbatim in the emitted text. -/
theorem enum_value_emitted_verbatim_witness :
    ∃ p q : String,
      printEnums [⟨"mode", [⟨"flag", "0x04", none⟩]⟩] =
        p ++ ("mode" ++ "_" ++ "flag" ++ " = " ++ "0x04" ++ ",") ++ q :=
  (enum_value_emitted_verbatim (XmlElem.mk "enum" [] [])
      [⟨"mode", [⟨"flag", "0x04", none⟩]⟩]).2.1
    ⟨"mode", [⟨"flag", "0x04", none⟩]⟩ (by simp)
    ⟨"flag", "0x04", none⟩ (by simp)

set_option maxRecDepth 100000 in
/-- The block functions and the skip predicate never consult the
`version` field: congruence along `sameExceptVersion`. -/
theorem blocks_version_irrel (sc : Scribe) (i j : WaylandInterface)
    (h : sameExceptVersion i j) :
    serverHeaderBlock sc i = serverHeaderBlock sc j ∧
    serverCodeBlock sc i = serverCodeBlock sc j ∧
    clientHeaderBlock sc i = clientHeaderBlock sc j ∧
    clientCodeBlock sc i = clientCodeBlock sc j ∧
    ignoreInterface sc i.name = ignoreInterface sc j.name := by
  cases i with
  | mk n1 v1 es1 ev1 rq1 =>
    cases j with
    | mk n2 v2 es2 ev2 rq2 =>
      obtain ⟨h1, h2, h3, h4⟩ := h
      simp only at h1 h2 h3 h4
      subst h1
      subst h2
      subst h3
      subst h4
      exact ⟨rfl, rfl, rfl, rfl, rfl⟩

/-- `emitLoop` congruence along a relation the keep test and the block
renderer cannot distinguish. -/
theorem emitLoop_congr (keep : α → Bool) (block : α → String) (R : α → α → Prop)
    (hkeep : ∀ a b, R a b → keep a = keep b)
    (hblock : ∀ a b, R a b → block a = block b) :
    ∀ (l1 l2 : List α), List.Forall₂ R l1 l2 →
      ∀ bb : Bool, emitLoop keep block l1 bb = emitLoop keep block l2 bb := by
  intro l1 l2 h
  induction h with
  | nil => intro bb; rfl
  | @cons a b as bs hab _ ih =>
    intro bb
    rw [emitLoop, emitLoop, hkeep a b hab, hblock a b hab]
    by_cases hk : keep b = true
    · rw [if_pos hk, if_pos hk, ih true]
    · rw [if_neg hk, if_neg hk, ih bb]

/-- C10: two interface lists that differ only in the parsed `version`
fields produce byte-identical output from all four emission
procedures: the IR `version` is never consulted after parsing. -/
theorem version_not_consulted (sc : Scribe) (is1 is2 : List WaylandInterface)
    (h : List.Forall₂ sameExceptVersion is1 is2) :
    generateServerHeader sc is1 = generateServerHeader sc is2 ∧
    generateServerCode sc is1 = generateServerCode sc is2 ∧
    generateClientHeader sc is1 = generateClientHeader sc is2 ∧
    generateClientCode sc is1 = generateClientCode sc is2 := by
  have hkeep : ∀ a b, sameExceptVersion a b →
      (fun i => !ignoreInterface sc i.name) a = (fun i => !ignoreInterface sc i.name) b := by
    intro a b hab
    simp only
    rw [(blocks_version_irrel sc a b hab).2.2.2.2]
  refine ⟨?_, ?_, ?_, ?_⟩
  · simp only [generateServerHeader]
    rw [emitLoop_congr _ _ sameExceptVersion hkeep
      (fun a b hab => (blocks_version_irrel sc a b hab).1) is1 is2 h false]
  · simp only [generateServerCode]
    rw [emitLoop_congr _ _ sameExceptVersion hkeep
      (fun a b hab => (blocks_version_irrel sc a b hab).2.1) is1 is2 h false]
  · simp only [generateClientHeader]
    rw [emitLoop_congr _ _ sameExceptVersion hkeep
      (fun a b hab => (blocks_version_irrel sc a b hab).2.2.1) is1 is2 h false]
  · simp only [generateClientCode]
    rw [emitLoop_congr _ _ sameExceptVersion hkeep
      (fun a b hab => (blocks_version_irrel sc a b hab).2.2.2.1) is1 is2 h false]

/-- Witness for C10: one interface at version 1 versus version 7 —
identical generated server header. -/
theorem version_not_consulted_witness :
    generateServerHeader ({} : Scribe) [⟨"greeter", 1, [], [], []⟩] =
      generateServerHeader ({} : Scribe) [⟨"greeter", 7, [], [], []⟩] :=
  (version_not_consulted ({} : Scribe) [⟨"greeter", 1, [], [], []⟩]
    [⟨"greeter", 7, [], [], []⟩]
    (List.Forall₂.cons ⟨rfl, rfl, rfl, rfl⟩ List.Forall₂.nil)).1
